import Mathlib

/-!
Shallow embedding of the `scitool` repository core: the resource archive
access layer (`src/main.rs`, with the `res::mapfile` / `res::datafile`
modules modelled from the spec where their source is not available) and the
book entity graph (`src/book.rs`).

Machine integers from the source (u8/u16) are modelled as `Nat`: none of the
verified operations perform arithmetic that can overflow, they only copy,
compare and look up identifier values.
-/

namespace SciTool

/-- Result of a Rust expression that may panic (`unwrap` / `expect` /
`anyhow::bail` free): `ok a` is normal return, `panic msg` is a panic with
the given message. -/
inductive PanicOr (α : Type) where
  | panic (msg : String)
  | ok (a : α)
deriving DecidableEq, Repr

/-- Errors surfaced as `Err` values by the archive access layer
(the spec's `IoError` / `FormatError` taxonomy). -/
inductive StoreError where
  | ioError
  | formatError
deriving DecidableEq, Repr

/-- Resource types. `Script` and `Heap` are the two named in `main.rs`;
`other tag` stands for every further variant of the source enum. -/
inductive ResourceType where
  | Script
  | Heap
  | other (tag : Nat)
deriving DecidableEq, Repr

/-- Modelled from the spec: the 1-byte resource type tag written by
`From<ResourceType> for u8` (used as `self.resource_type.into()` in
`main.rs`). The exact tag values are an open question in the spec; the model
fixes representative distinct values, and no theorem depends on the choice. -/
def ResourceType.toByte : ResourceType → Nat
  | .Script => 130
  | .Heap => 145
  | .other tag => tag % 256

/-- A resource identifier: `(type, number)` with the number a u16
(`ResourceId::new(res_type, res_num)`). -/
structure ResourceId where
  type : ResourceType
  number : Nat
deriving DecidableEq, Repr

/-- Modelled from the spec: a location descriptor inside the data file, as
produced by the map-file index (`res::mapfile` is not in the visible
source). Only the identifier and the offset are needed by the claims. -/
structure Location where
  id : ResourceId
  offset : Nat
deriving DecidableEq, Repr

/-- Modelled from the spec: `ResourceLocations`, the ordered mapping parsed
from the map file (`res::mapfile::ResourceLocations`). -/
structure ResourceLocations where
  entries : List Location
deriving DecidableEq, Repr

/-- `ResourceLocations::locations()`: ordered enumeration of all locations. -/
def ResourceLocations.locations (rl : ResourceLocations) : List Location :=
  rl.entries

/-- `ResourceLocations::get_location(id)`: lookup of one location by
resource identifier. -/
def ResourceLocations.get_location (rl : ResourceLocations) (id : ResourceId) :
    Option Location :=
  rl.entries.find? (fun loc => decide (loc.id = id))

/-- Modelled from the spec: the raw header+payload bytes of one record
exactly as stored in the data file, with no decompression
(`res::datafile::RawContents`). -/
structure RawContents where
  resType : ResourceType
  resNum : Nat
  compression : Nat
  declaredSize : Nat
  payload : List Nat
deriving DecidableEq, Repr

/-- Modelled from the spec: fully decoded contents of one resource
(`res::datafile::Contents`): the declared type plus the materialized,
decoded byte buffer exposed by `contents.data()`. -/
structure Contents where
  resType : ResourceType
  data : List Nat
deriving DecidableEq, Repr

instance exceptDecEq {ε α : Type} [DecidableEq ε] [DecidableEq α] :
    DecidableEq (Except ε α) := fun x y =>
  match x, y with
  | .error e, .error f =>
    if h : e = f then isTrue (by rw [h])
    else isFalse (by intro hc; cases hc; exact h rfl)
  | .error _, .ok _ => isFalse (by intro hc; cases hc)
  | .ok _, .error _ => isFalse (by intro hc; cases hc)
  | .ok a, .ok b =>
    if h : a = b then isTrue (by rw [h])
    else isFalse (by intro hc; cases hc; exact h rfl)

/-- Modelled from the spec: one record of the data file. `raw` is the
(fallible) result of reading the stored bytes; `decodedPayload` is the
result of the black-box decompression codec selected by the record's
compression tag, carried as data because the codecs themselves are outside
the specified core (an unrecognized tag is an error here). -/
structure DataRecord where
  raw : Except StoreError RawContents
  decodedPayload : Except StoreError (List Nat)
deriving DecidableEq, Repr

/-- Modelled from the spec: the data blob reader (`res::datafile::DataFile`),
abstracted as a mapping from byte offsets to records since the per-record
byte layout is an open question in the spec. -/
structure DataFile where
  records : List (Nat × DataRecord)
deriving DecidableEq, Repr

/-- First-match association-list lookup (the model of every keyed lookup in
the embedding). -/
def assocGet {α β : Type} [DecidableEq α] : List (α × β) → α → Option β
  | [], _ => none
  | p :: rest, k => if p.1 = k then some p.2 else assocGet rest k

/-- Modelled from the spec: `DataFile::read_raw_contents(location)` returns
the header and payload bytes exactly as stored, with no decompression. -/
def DataFile.read_raw_contents (df : DataFile) (loc : Location) :
    Except StoreError RawContents :=
  match assocGet df.records loc.offset with
  | none => .error .ioError
  | some rec => rec.raw

/-- Modelled from the spec: `DataFile::read_contents(location)` performs the
same retrieval, then applies the per-resource decode step: pass-through when
the compression tag denotes "stored uncompressed" (tag 0), otherwise the
black-box codec keyed by the tag, failing with a `FormatError` when the tag
is unrecognized or the decoded size mismatches the declared length. -/
def DataFile.read_contents (df : DataFile) (loc : Location) :
    Except StoreError Contents :=
  match assocGet df.records loc.offset with
  | none => .error .ioError
  | some rec =>
    match rec.raw with
    | .error e => .error e
    | .ok raw =>
      if raw.compression = 0 then
        .ok ⟨raw.resType, raw.payload⟩
      else
        match rec.decodedPayload with
        | .error e => .error e
        | .ok dec =>
          if dec.length = raw.declaredSize then .ok ⟨raw.resType, dec⟩
          else .error .formatError

/-- `ResourceStore` from `main.rs`: the parsed location index plus the data
file reader. -/
structure ResourceStore where
  resource_locations : ResourceLocations
  data_file : DataFile
deriving DecidableEq, Repr

/-- `ResourceStore::read_raw_contents()` from `main.rs`: maps every indexed
location, in index order, to an independently fallible raw read. -/
def ResourceStore.read_raw_contents (s : ResourceStore) :
    List (Except StoreError RawContents) :=
  s.resource_locations.locations.map (fun loc => s.data_file.read_raw_contents loc)

/-- `ResourceStore::read_resource(res_type, res_num)` from `main.rs`. The
source calls `.unwrap()` on `get_location(...)`, so an identifier absent
from the index is a panic, modelled by the `PanicOr.panic` branch. -/
def ResourceStore.read_resource (s : ResourceStore) (res_type : ResourceType)
    (res_num : Nat) : PanicOr (Except StoreError Contents) :=
  match s.resource_locations.get_location ⟨res_type, res_num⟩ with
  | none => .panic "called Option::unwrap on a None value"
  | some location => .ok (s.data_file.read_contents location)

/-- The `extract-as-patch` command's arguments (`ExtractResourceAsPatch` in
`main.rs`). -/
structure ExtractResourceAsPatch where
  root_dir : String
  resource_type : ResourceType
  resource_id : Nat
  dry_run : Bool
  output_dir : Option String
deriving DecidableEq, Repr

/-- Observable side effects of one `ExtractResourceAsPatch::run` call, in
the order they are performed: archive opens/reads and output-file
creation/writes. -/
inductive Effect where
  | openStore
  | readResource (t : ResourceType) (n : Nat)
  | createFile (path : String)
  | writeBytes (bytes : List Nat)
deriving DecidableEq, Repr

/-- How one `ExtractResourceAsPatch::run` call can fail. -/
inductive RunError where
  | ioError
  | storeError (e : StoreError)
  | panicked (msg : String)
  | unsupported
  | fileExists
deriving DecidableEq, Repr

/-- The file-system environment a run executes against: the result of
`open_main_store(root_dir)` and the set of paths that already exist (a
`create_new` open fails on those). -/
structure Env where
  mainStore : Except StoreError ResourceStore
  existingFiles : List String
deriving DecidableEq, Repr

/-- `Path::join` for the relative path strings used in this model. -/
def pathJoin (a b : String) : String :=
  a ++ "/" ++ b

/-- The patch-file extension chosen by the `match self.resource_type` in
`ExtractResourceAsPatch::run`; `none` is the `anyhow::bail!` arm. -/
def patchExt : ResourceType → Option String
  | .Script => some "SCR"
  | .Heap => some "HEP"
  | .other _ => none

/-- `ExtractResourceAsPatch::run` from `main.rs`, step by step:
open the main store, `read_resource` (which panics on an absent id and
otherwise returns the decoded contents), choose the extension (bailing with
"Unsupported resource type" for every type other than Script/Heap), build
`{resource_id}.{ext}` under `output_dir.unwrap_or(root_dir)`, and — unless
`dry_run` — open `root_dir.join(filename)` with `create_new` (failing if the
path exists, and note the source joins `root_dir` a second time here) and
write the type tag byte, a zero header-size byte and `contents.data()`.
Returns the effect trace alongside the result. -/
def ExtractResourceAsPatch.run (cfg : ExtractResourceAsPatch) (env : Env) :
    List Effect × Except RunError Unit :=
  match env.mainStore with
  | .error _ => ([.openStore], .error .ioError)
  | .ok store =>
    match store.read_resource cfg.resource_type cfg.resource_id with
    | .panic msg =>
      ([.openStore, .readResource cfg.resource_type cfg.resource_id],
        .error (.panicked msg))
    | .ok (.error e) =>
      ([.openStore, .readResource cfg.resource_type cfg.resource_id],
        .error (.storeError e))
    | .ok (.ok contents) =>
      match patchExt cfg.resource_type with
      | none =>
        ([.openStore, .readResource cfg.resource_type cfg.resource_id],
          .error .unsupported)
      | some ext =>
        let out_root := cfg.output_dir.getD cfg.root_dir
        let filename := pathJoin out_root (toString cfg.resource_id ++ "." ++ ext)
        if cfg.dry_run then
          ([.openStore, .readResource cfg.resource_type cfg.resource_id], .ok ())
        else
          let path := pathJoin cfg.root_dir filename
          if env.existingFiles.contains path then
            ([.openStore, .readResource cfg.resource_type cfg.resource_id],
              .error .fileExists)
          else
            ([.openStore, .readResource cfg.resource_type cfg.resource_id,
              .createFile path,
              .writeBytes ([cfg.resource_type.toByte, 0] ++ contents.data)],
              .ok ())

/-! ## The book entity graph (`src/book.rs`)

Raw identifiers are `Nat` (u16 for rooms, u8 for the rest) and `String` for
roles. The `BTreeMap`s owned by the `Book` are modelled as association lists;
the `BTreeMap` invariant (strictly ascending, hence duplicate-free, keys) is
stated as the well-formedness predicates further down and assumed by the
theorems that need it. -/

abbrev RawRoomId := Nat
abbrev RawNounId := Nat
abbrev RawVerbId := Nat
abbrev RawConditionId := Nat
abbrev RawSequenceId := Nat
abbrev RawTalkerId := Nat
abbrev RawRoleId := String

/-- Modelled from the spec: `builder::ConversationKey` (the `builder` module
is not in the visible source): the `(raw verb, raw condition)` pair, with
`verb()` and `condition()` accessors and the derived field-sequence
(lexicographic) ordering. -/
structure ConversationKey where
  verb : RawVerbId
  condition : RawConditionId
deriving DecidableEq, Repr

/-- The derived `Ord` on `ConversationKey`: lexicographic by field sequence. -/
def ConversationKey.lt (a b : ConversationKey) : Prop :=
  a.verb < b.verb ∨ (a.verb = b.verb ∧ a.condition < b.condition)

instance (a b : ConversationKey) : Decidable (ConversationKey.lt a b) := by
  unfold ConversationKey.lt
  infer_instance

/-- Public composite identifiers (`RoomId(RawRoomId)` etc. in `book.rs`). -/
structure RoomId where
  raw : RawRoomId
deriving DecidableEq, Repr

structure VerbId where
  raw : RawVerbId
deriving DecidableEq, Repr

structure RoleId where
  raw : RawRoleId
deriving DecidableEq, Repr

structure NounId where
  room : RoomId
  noun : RawNounId
deriving DecidableEq, Repr

structure TalkerId where
  raw : RawTalkerId
deriving DecidableEq, Repr

structure ConditionId where
  room : RoomId
  condition : RawConditionId
deriving DecidableEq, Repr

structure ConversationId where
  noun : NounId
  key : ConversationKey
deriving DecidableEq, Repr

structure LineId where
  conversation : ConversationId
  sequence : RawSequenceId
deriving DecidableEq, Repr

/-- Modelled from the spec: `builder::ConditionEntry` (not in the visible
source) carries the human-authored description from the input config. -/
structure BuilderConditionEntry where
  desc : String
deriving DecidableEq, Repr

/-- `ConditionEntry`: `builder` is `Some` iff a description was configured. -/
structure ConditionEntry where
  builder : Option BuilderConditionEntry
deriving DecidableEq, Repr

structure LineEntry where
  text : String
  talker : RawTalkerId
deriving DecidableEq, Repr

structure ConversationEntry where
  lines : List (RawSequenceId × LineEntry)
deriving DecidableEq, Repr

structure NounEntry where
  desc : Option String
  conversations : List (ConversationKey × ConversationEntry)
deriving DecidableEq, Repr

structure RoomEntry where
  name : Option String
  conditions : List (RawConditionId × ConditionEntry)
  nouns : List (RawNounId × NounEntry)
deriving DecidableEq, Repr

structure RoleEntry where
  name : String
  short_name : String
deriving DecidableEq, Repr

structure TalkerEntry where
  role_id : RawRoleId
deriving DecidableEq, Repr

structure VerbEntry where
  name : String
deriving DecidableEq, Repr

/-- The `Book`: its four entry tables (`roles`, `talkers`, `verbs`, `rooms`
fields of the Rust struct; renamed with a `Table` suffix because the
iterator methods below keep the source's public names). -/
structure Book where
  roleTable : List (RawRoleId × RoleEntry)
  talkerTable : List (RawTalkerId × TalkerEntry)
  verbTable : List (RawVerbId × VerbEntry)
  roomTable : List (RawRoomId × RoomEntry)
deriving DecidableEq, Repr

/-! Navigation handles. Each handle is its Rust counterpart: the parent
handle, the raw identifier and the entry it borrows (the Book is immutable,
so the borrowed entry is modelled by a copy). -/

structure Room where
  parent : Book
  raw_id : RawRoomId
  entry : RoomEntry
deriving DecidableEq, Repr

structure Noun where
  parent : Room
  raw_id : RawNounId
  entry : NounEntry
deriving DecidableEq, Repr

structure Conversation where
  parent : Noun
  raw_id : ConversationKey
  entry : ConversationEntry
deriving DecidableEq, Repr

structure Line where
  parent : Conversation
  raw_id : RawSequenceId
  entry : LineEntry
deriving DecidableEq, Repr

structure Condition where
  parent : Room
  raw_id : RawConditionId
  entry : ConditionEntry
deriving DecidableEq, Repr

structure Verb where
  parent : Book
  raw_id : RawVerbId
  entry : VerbEntry
deriving DecidableEq, Repr

structure Talker where
  parent : Book
  raw_id : RawTalkerId
  entry : TalkerEntry
deriving DecidableEq, Repr

structure Role where
  parent : Book
  raw_id : RawRoleId
  entry : RoleEntry
deriving DecidableEq, Repr

/-! Book lookup methods. -/

def Book.get_talker (b : Book) (id : TalkerId) : Option Talker :=
  (assocGet b.talkerTable id.raw).map (fun entry => ⟨b, id.raw, entry⟩)

def Book.get_role (b : Book) (id : RoleId) : Option Role :=
  (assocGet b.roleTable id.raw).map (fun entry => ⟨b, id.raw, entry⟩)

def Book.get_verb (b : Book) (id : VerbId) : Option Verb :=
  (assocGet b.verbTable id.raw).map (fun entry => ⟨b, id.raw, entry⟩)

def Book.get_room (b : Book) (id : RoomId) : Option Room :=
  (assocGet b.roomTable id.raw).map (fun entry => ⟨b, id.raw, entry⟩)

/-! Room handle methods. -/

def Room.id (r : Room) : RoomId := ⟨r.raw_id⟩

/-- `Room::name`: `self.entry.name.as_deref().unwrap_or("*NO NAME*")`. -/
def Room.name (r : Room) : String := r.entry.name.getD "*NO NAME*"

def Room.nouns (r : Room) : List Noun :=
  r.entry.nouns.map (fun p => ⟨r, p.1, p.2⟩)

def Room.conditions (r : Room) : List Condition :=
  r.entry.conditions.map (fun p => ⟨r, p.1, p.2⟩)

def Room.get_condition_inner (r : Room) (raw_id : RawConditionId) :
    Option Condition :=
  (assocGet r.entry.conditions raw_id).map (fun entry => ⟨r, raw_id, entry⟩)

def Room.get_noun_inner (r : Room) (raw_id : RawNounId) : Option Noun :=
  (assocGet r.entry.nouns raw_id).map (fun entry => ⟨r, raw_id, entry⟩)

def Room.book (r : Room) : Book := r.parent

/-! Noun handle methods. -/

def Noun.id (n : Noun) : NounId := ⟨n.parent.id, n.raw_id⟩

def Noun.desc (n : Noun) : Option String := n.entry.desc

def Noun.room (n : Noun) : Room := n.parent

def Noun.conversations (n : Noun) : List Conversation :=
  n.entry.conversations.map (fun p => ⟨n, p.1, p.2⟩)

def Noun.get_conversation_inner (n : Noun) (raw_id : ConversationKey) :
    Option Conversation :=
  (assocGet n.entry.conversations raw_id).map (fun entry => ⟨n, raw_id, entry⟩)

def Noun.book (n : Noun) : Book := n.parent.book

/-! Conversation handle methods. -/

def Conversation.id (c : Conversation) : ConversationId :=
  ⟨c.parent.id, c.raw_id⟩

def Conversation.lines (c : Conversation) : List Line :=
  c.entry.lines.map (fun p => ⟨c, p.1, p.2⟩)

def Conversation.noun (c : Conversation) : Noun := c.parent

def Conversation.book (c : Conversation) : Book := c.parent.book

/-- `Conversation::verb`: `None` when the key's verb is 0, otherwise
`self.book().get_verb(...).unwrap()` — a panic when the verb is absent from
the verb table. -/
def Conversation.verb (c : Conversation) : PanicOr (Option Verb) :=
  if c.raw_id.verb = 0 then .ok none
  else
    match c.book.get_verb ⟨c.raw_id.verb⟩ with
    | some v => .ok (some v)
    | none => .panic "called Option::unwrap on a None value"

/-- `Conversation::condition`: `None` when the key's condition is 0,
otherwise `self.noun().room().get_condition_inner(...).expect("Condition has
already been cleared")` — a panic with that message when the condition is
absent from the room's condition table. -/
def Conversation.condition (c : Conversation) : PanicOr (Option Condition) :=
  if c.raw_id.condition = 0 then .ok none
  else
    match c.noun.room.get_condition_inner c.raw_id.condition with
    | some cond => .ok (some cond)
    | none => .panic "Condition has already been cleared"

def Conversation.get_line_inner (c : Conversation) (raw_id : RawSequenceId) :
    Option Line :=
  (assocGet c.entry.lines raw_id).map (fun entry => ⟨c, raw_id, entry⟩)

/-! Line handle methods. -/

def Line.id (l : Line) : LineId := ⟨l.parent.id, l.raw_id⟩

def Line.text (l : Line) : String := l.entry.text

def Line.conversation (l : Line) : Conversation := l.parent

def Line.book (l : Line) : Book := l.parent.book

/-- `Line::talker`: `self.book().get_talker(TalkerId(self.entry.talker)).unwrap()`
— a panic when the line's talker is absent from the talker table. -/
def Line.talker (l : Line) : PanicOr Talker :=
  match l.book.get_talker ⟨l.entry.talker⟩ with
  | some t => .ok t
  | none => .panic "called Option::unwrap on a None value"

/-! Condition / Verb / Talker / Role handle methods. -/

def Condition.id (c : Condition) : ConditionId := ⟨c.parent.id, c.raw_id⟩

def Condition.desc (c : Condition) : Option String :=
  c.entry.builder.map (fun b => b.desc)

def Condition.room (c : Condition) : Room := c.parent

def Verb.id (v : Verb) : VerbId := ⟨v.raw_id⟩

def Verb.name (v : Verb) : String := v.entry.name

def Talker.id (t : Talker) : TalkerId := ⟨t.raw_id⟩

/-- `Talker::role`: `self.parent.get_role(&RoleId(self.entry.role_id.clone())).unwrap()`
— a panic when the talker's role is absent from the role table. -/
def Talker.role (t : Talker) : PanicOr Role :=
  match t.parent.get_role ⟨t.entry.role_id⟩ with
  | some r => .ok r
  | none => .panic "called Option::unwrap on a None value"

/-- `Line::role`: `self.talker().role()`. -/
def Line.role (l : Line) : PanicOr Role :=
  match l.talker with
  | .panic msg => .panic msg
  | .ok t => t.role

def Role.id (r : Role) : RoleId := ⟨r.raw_id⟩

def Role.name (r : Role) : String := r.entry.name

def Role.short_name (r : Role) : String := r.entry.short_name

/-! Book iteration methods (`Book::rooms()` etc.). -/

def Book.rooms (b : Book) : List Room :=
  b.roomTable.map (fun p => ⟨b, p.1, p.2⟩)

def Book.roles (b : Book) : List Role :=
  b.roleTable.map (fun p => ⟨b, p.1, p.2⟩)

def Book.verbs (b : Book) : List Verb :=
  b.verbTable.map (fun p => ⟨b, p.1, p.2⟩)

def Book.talkers (b : Book) : List Talker :=
  b.talkerTable.map (fun p => ⟨b, p.1, p.2⟩)

def Book.nouns (b : Book) : List Noun :=
  b.rooms.flatMap Room.nouns

def Book.conversations (b : Book) : List Conversation :=
  b.nouns.flatMap Noun.conversations

def Book.lines (b : Book) : List Line :=
  b.conversations.flatMap Conversation.lines

def Book.conditions (b : Book) : List Condition :=
  b.rooms.flatMap Room.conditions

/-! Composite-identifier lookups on the book. -/

def Book.get_condition (b : Book) (id : ConditionId) : Option Condition :=
  (b.get_room id.room).bind (fun room => room.get_condition_inner id.condition)

def Book.get_noun (b : Book) (id : NounId) : Option Noun :=
  (b.get_room id.room).bind (fun room => room.get_noun_inner id.noun)

def Book.get_conversation (b : Book) (id : ConversationId) : Option Conversation :=
  (b.get_noun id.noun).bind (fun noun => noun.get_conversation_inner id.key)

def Book.get_line (b : Book) (id : LineId) : Option Line :=
  (b.get_conversation id.conversation).bind
    (fun conversation => conversation.get_line_inner id.sequence)

/-! ## Well-formedness: the `BTreeMap` invariant

Every keyed table of the Rust `Book` is a `BTreeMap`, so its entries are
strictly ascending in key order. The association lists of the model satisfy
the corresponding `Pairwise` predicates for every book that arises from the
builder; theorems that depend on key uniqueness or ordering take these
predicates as hypotheses. -/

def NounEntry.WF (e : NounEntry) : Prop :=
  e.conversations.Pairwise (fun a b => ConversationKey.lt a.1 b.1) ∧
  ∀ p ∈ e.conversations, p.2.lines.Pairwise (fun a b => a.1 < b.1)

def RoomEntry.WF (e : RoomEntry) : Prop :=
  e.conditions.Pairwise (fun a b => a.1 < b.1) ∧
  e.nouns.Pairwise (fun a b => a.1 < b.1) ∧
  ∀ p ∈ e.nouns, p.2.WF

def Book.WF (b : Book) : Prop :=
  b.roleTable.Pairwise (fun a b => a.1 < b.1) ∧
  b.talkerTable.Pairwise (fun a b => a.1 < b.1) ∧
  b.verbTable.Pairwise (fun a b => a.1 < b.1) ∧
  b.roomTable.Pairwise (fun a b => a.1 < b.1) ∧
  ∀ p ∈ b.roomTable, p.2.WF

/-! Reachability of handles by downward navigation from a built book. -/

def Book.HasRoom (b : Book) (r : Room) : Prop := r ∈ b.rooms

def Book.HasNoun (b : Book) (n : Noun) : Prop :=
  ∃ r ∈ b.rooms, n ∈ r.nouns

def Book.HasConversation (b : Book) (c : Conversation) : Prop :=
  ∃ r ∈ b.rooms, ∃ n ∈ r.nouns, c ∈ n.conversations

def Book.HasLine (b : Book) (l : Line) : Prop :=
  ∃ r ∈ b.rooms, ∃ n ∈ r.nouns, ∃ c ∈ n.conversations, l ∈ c.lines

/-- The book invariant assumed by claim C9, stated over the entry tables:
every line's talker identifier resolves in the talker table. -/
def Book.LinesResolve (b : Book) : Prop :=
  ∀ pr ∈ b.roomTable, ∀ pn ∈ pr.2.nouns, ∀ pc ∈ pn.2.conversations,
    ∀ pl ∈ pc.2.lines, (assocGet b.talkerTable pl.2.talker).isSome

/-- The book invariant assumed by claim C9: every talker's role identifier
resolves in the role table. -/
def Book.TalkersResolve (b : Book) : Prop :=
  ∀ p ∈ b.talkerTable, (assocGet b.roleTable p.2.role_id).isSome

instance (e : NounEntry) : Decidable e.WF := by
  unfold NounEntry.WF
  infer_instance

instance (e : RoomEntry) : Decidable e.WF := by
  unfold RoomEntry.WF
  infer_instance

instance (b : Book) : Decidable b.WF := by
  unfold Book.WF
  infer_instance

instance (b : Book) (r : Room) : Decidable (b.HasRoom r) := by
  unfold Book.HasRoom
  infer_instance

instance (b : Book) (n : Noun) : Decidable (b.HasNoun n) := by
  unfold Book.HasNoun
  infer_instance

instance (b : Book) (c : Conversation) : Decidable (b.HasConversation c) := by
  unfold Book.HasConversation
  infer_instance

instance (b : Book) (l : Line) : Decidable (b.HasLine l) := by
  unfold Book.HasLine
  infer_instance

instance (b : Book) : Decidable b.LinesResolve := by
  unfold Book.LinesResolve
  infer_instance

instance (b : Book) : Decidable b.TalkersResolve := by
  unfold Book.TalkersResolve
  infer_instance

/-! Helper lemmas about `assocGet`. -/

theorem assocGet_eq_some_of_mem {α β : Type} [DecidableEq α]
    {l : List (α × β)} {k : α} {v : β}
    (hnd : l.Pairwise (fun a b => a.1 ≠ b.1)) (hm : (k, v) ∈ l) :
    assocGet l k = some v := by
  induction l with
  | nil => cases hm
  | cons p rest ih =>
    obtain ⟨hhead, htail⟩ := List.pairwise_cons.mp hnd
    rcases List.mem_cons.mp hm with hm | hm
    · rw [← hm]
      simp [assocGet]
    · have hne : ¬ p.1 = k := hhead (k, v) hm
      simp only [assocGet, if_neg hne]
      exact ih htail hm

theorem mem_of_assocGet_eq_some {α β : Type} [DecidableEq α]
    {l : List (α × β)} {k : α} {v : β}
    (h : assocGet l k = some v) : (k, v) ∈ l := by
  induction l with
  | nil => simp [assocGet] at h
  | cons p rest ih =>
    by_cases hk : p.1 = k
    · simp only [assocGet, if_pos hk] at h
      have hv : p.2 = v := Option.some.inj h
      have hp : (k, v) = p := by
        calc (k, v) = (p.1, p.2) := by rw [hk, hv]
          _ = p := rfl
      rw [hp]
      exact List.mem_cons_self p rest
    · simp only [assocGet, if_neg hk] at h
      exact List.mem_cons_of_mem p (ih h)

theorem ConversationKey.lt_irrefl (a : ConversationKey) : ¬ a.lt a := by
  intro h
  rcases h with h | ⟨_, h⟩ <;> exact Nat.lt_irrefl _ h

theorem ConversationKey.ne_of_lt {a b : ConversationKey} (h : a.lt b) :
    a ≠ b := by
  intro he
  rw [he] at h
  exact ConversationKey.lt_irrefl b h

theorem pairwise_fst_ne_of_nat_lt {β : Type} {l : List (Nat × β)}
    (h : l.Pairwise (fun a b => a.1 < b.1)) :
    l.Pairwise (fun a b => a.1 ≠ b.1) :=
  h.imp (fun hab => Nat.ne_of_lt hab)

theorem pairwise_fst_ne_of_key_lt {β : Type} {l : List (ConversationKey × β)}
    (h : l.Pairwise (fun a b => ConversationKey.lt a.1 b.1)) :
    l.Pairwise (fun a b => a.1 ≠ b.1) :=
  h.imp (fun hab => ConversationKey.ne_of_lt hab)

theorem pairwise_fst_ne_of_string_lt {β : Type} {l : List (String × β)}
    (h : l.Pairwise (fun a b => a.1 < b.1)) :
    l.Pairwise (fun a b => a.1 ≠ b.1) :=
  h.imp (fun hab => ne_of_lt hab)

/-! ## Concrete sample data

A small book and two small stores used by witnesses and counterexamples. -/

def lineEntryW1 : LineEntry := ⟨"Hello there.", 1⟩

def lineEntryW2 : LineEntry := ⟨"Goodbye.", 1⟩

def convEntryW : ConversationEntry := ⟨[(1, lineEntryW1), (5, lineEntryW2)]⟩

def convEntryW2 : ConversationEntry := ⟨[(2, ⟨"Hm.", 1⟩)]⟩

def nounEntryW : NounEntry :=
  ⟨some "Door", [(⟨0, 0⟩, convEntryW), (⟨2, 9⟩, convEntryW2)]⟩

def nounEntryW2 : NounEntry := ⟨none, []⟩

def roomEntryW : RoomEntry :=
  ⟨some "Bridge", [(3, ⟨some ⟨"The door is open"⟩⟩)],
    [(4, nounEntryW), (6, nounEntryW2)]⟩

def bookW : Book :=
  ⟨[("hero", ⟨"Hero Person", "Hero"⟩)], [(1, ⟨"hero"⟩)], [(2, ⟨"Look"⟩)],
    [(10, roomEntryW)]⟩

def roomW : Room := ⟨bookW, 10, roomEntryW⟩

def roomNoNameW : Room := ⟨bookW, 11, ⟨none, [], []⟩⟩

def nounW : Noun := ⟨roomW, 4, nounEntryW⟩

def convW : Conversation := ⟨nounW, ⟨0, 0⟩, convEntryW⟩

def convW2 : Conversation := ⟨nounW, ⟨2, 9⟩, convEntryW2⟩

def lineW : Line := ⟨convW, 1, lineEntryW1⟩

/-- A store whose location index is empty (for the missing-identifier case). -/
def storeC2 : ResourceStore := ⟨⟨[]⟩, ⟨[]⟩⟩

/-- A record stored compressed (tag 1): raw payload `[7, 7]`, decoded
payload `[1, 2, 3]` of the declared size 3. -/
def rawC1 : RawContents := ⟨.Script, 42, 1, 3, [7, 7]⟩

def recC1 : DataRecord := ⟨.ok rawC1, .ok [1, 2, 3]⟩

def storeC1 : ResourceStore := ⟨⟨[⟨⟨.Script, 42⟩, 0⟩]⟩, ⟨[(0, recC1)]⟩⟩

def cfgC1 : ExtractResourceAsPatch := ⟨"root", .Script, 42, false, none⟩

def envC1 : Env := ⟨.ok storeC1, []⟩

/-- A store holding one resource of an unsupported type. -/
def rawC7 : RawContents := ⟨.other 5, 7, 0, 1, [9]⟩

def storeC7 : ResourceStore :=
  ⟨⟨[⟨⟨.other 5, 7⟩, 0⟩]⟩, ⟨[(0, ⟨.ok rawC7, .error .formatError⟩)]⟩⟩

def cfgC7 : ExtractResourceAsPatch := ⟨"root", .other 5, 7, false, none⟩

def envC7 : Env := ⟨.ok storeC7, []⟩

/-- A two-location store whose second record is corrupt. -/
def rawC8 : RawContents := ⟨.Script, 1, 0, 1, [4]⟩

def storeC8 : ResourceStore :=
  ⟨⟨[⟨⟨.Script, 1⟩, 0⟩, ⟨⟨.Script, 2⟩, 50⟩]⟩,
    ⟨[(0, ⟨.ok rawC8, .ok [4]⟩), (50, ⟨.error .formatError, .error .formatError⟩)]⟩⟩

/-! ## Claim theorems -/

/-- C6: for every conversation handle, a Conversation Key with raw verb 0
makes `verb()` return `None`, and a Conversation Key with raw condition 0
makes `condition()` return `None` (in both cases without panicking). -/
theorem C6_zero_key_conventions (c : Conversation) :
    (c.raw_id.verb = 0 → c.verb = .ok none) ∧
    (c.raw_id.condition = 0 → c.condition = .ok none) := by
  constructor
  · intro h
    simp [Conversation.verb, h]
  · intro h
    simp [Conversation.condition, h]

/-- C6 witness: the sample conversation with key `(0, 0)` reports no verb
and no condition. -/
theorem C6_zero_key_conventions_witness :
    convW.verb = PanicOr.ok none ∧ convW.condition = PanicOr.ok none :=
  ⟨(C6_zero_key_conventions convW).1 rfl, (C6_zero_key_conventions convW).2 rfl⟩

/-- C10: `Room::name` is total: it returns the stored display name when the
entry has one and the literal `"*NO NAME*"` when the entry's optional name
is absent; it never exposes the option itself. -/
theorem C10_room_name_total (r : Room) :
    (∀ s, r.entry.name = some s → r.name = s) ∧
    (r.entry.name = none → r.name = "*NO NAME*") := by
  constructor
  · intro s h
    simp [Room.name, h]
  · intro h
    simp [Room.name, h]

/-- C10 witness: the named sample room reports its name, the nameless one
reports `"*NO NAME*"`. -/
theorem C10_room_name_total_witness :
    roomW.name = "Bridge" ∧ roomNoNameW.name = "*NO NAME*" :=
  ⟨(C10_room_name_total roomW).1 "Bridge" rfl, (C10_room_name_total roomNoNameW).2 rfl⟩

/-- C3 counterexample: `convW2` is a conversation of the sample book whose
key carries the non-zero raw condition 9, absent from its room's condition
table; its `condition()` does not return the absent result `ok none` — it
panics (the source's `.expect("Condition has already been cleared")`),
refuting the claim that it "returns None, and never faults". -/
theorem C3_absent_condition_counterexample :
    bookW.HasConversation convW2 ∧
    convW2.raw_id.condition = 9 ∧
    convW2.noun.room.get_condition_inner convW2.raw_id.condition = none ∧
    convW2.condition = PanicOr.panic "Condition has already been cleared" ∧
    convW2.condition ≠ PanicOr.ok none := by
  refine ⟨by decide, rfl, rfl, rfl, ?_⟩
  intro h
  exact PanicOr.noConfusion h

/-- C3 (amended): for every conversation whose key carries a non-zero raw
condition identifier that is absent from its room's condition table,
`condition()` panics with the message "Condition has already been cleared"
instead of returning the absent result `None`. -/
theorem C3_absent_condition_panics (c : Conversation)
    (hnz : c.raw_id.condition ≠ 0)
    (habs : c.noun.room.get_condition_inner c.raw_id.condition = none) :
    c.condition = .panic "Condition has already been cleared" := by
  unfold Conversation.condition
  rw [if_neg hnz, habs]

/-- C3 witness: the amended statement applied to the sample conversation. -/
theorem C3_absent_condition_panics_witness :
    convW2.condition = PanicOr.panic "Condition has already been cleared" :=
  C3_absent_condition_panics convW2 (by decide) (by decide)

/-- C4: a conversation handle reached by navigating a well-formed book
round-trips: `book.get_conversation(c.id())` returns `Some` of a handle
with the same room, noun, conversation key and lines — in fact the very
same handle. -/
theorem C4_conversation_id_roundtrip (b : Book) (c : Conversation)
    (hwf : b.WF) (hc : b.HasConversation c) :
    b.get_conversation c.id = some c := by
  obtain ⟨r, hr, n, hn, hcm⟩ := hc
  obtain ⟨⟨kr, er⟩, hpr, hre⟩ := List.mem_map.mp hr
  subst hre
  obtain ⟨⟨kn, en⟩, hpn, hne⟩ := List.mem_map.mp hn
  subst hne
  obtain ⟨⟨kc, ec⟩, hpc, hce⟩ := List.mem_map.mp hcm
  subst hce
  have hroomWF : RoomEntry.WF er := hwf.2.2.2.2 (kr, er) hpr
  have hnounWF : NounEntry.WF en := hroomWF.2.2 (kn, en) hpn
  have h1 : assocGet b.roomTable kr = some er :=
    assocGet_eq_some_of_mem (pairwise_fst_ne_of_nat_lt hwf.2.2.2.1) hpr
  have h2 : assocGet er.nouns kn = some en :=
    assocGet_eq_some_of_mem (pairwise_fst_ne_of_nat_lt hroomWF.2.1) hpn
  have h3 : assocGet en.conversations kc = some ec :=
    assocGet_eq_some_of_mem (pairwise_fst_ne_of_key_lt hnounWF.1) hpc
  simp [Conversation.id, Noun.id, Room.id, Book.get_conversation, Book.get_noun,
    Book.get_room, Room.get_noun_inner, Noun.get_conversation_inner, h1, h2, h3]

/-- C4 witness: the round-trip at a concrete conversation of the sample
book. -/
theorem C4_conversation_id_roundtrip_witness :
    bookW.get_conversation convW.id = some convW :=
  C4_conversation_id_roundtrip bookW convW (by decide) (by decide)

/-- C5: in a well-formed book, iterating a room's nouns, a noun's
conversations or a conversation's lines yields strictly ascending raw
identifiers (keys), and — the iterators being pure functions of the handle —
repeated iterations yield the same sequence. -/
theorem C5_iteration_ascending (b : Book) (hwf : b.WF) :
    (∀ r, b.HasRoom r →
      (r.nouns.map Noun.raw_id).Pairwise (· < ·) ∧ r.nouns = r.nouns) ∧
    (∀ n, b.HasNoun n →
      (n.conversations.map Conversation.raw_id).Pairwise ConversationKey.lt ∧
      n.conversations = n.conversations) ∧
    (∀ c, b.HasConversation c →
      (c.lines.map Line.raw_id).Pairwise (· < ·) ∧ c.lines = c.lines) := by
  refine ⟨?_, ?_, ?_⟩
  · intro r hr
    obtain ⟨⟨kr, er⟩, hpr, hre⟩ := List.mem_map.mp hr
    subst hre
    refine ⟨?_, rfl⟩
    have : er.nouns.Pairwise (fun a b => a.1 < b.1) :=
      (hwf.2.2.2.2 (kr, er) hpr).2.1
    simpa [Room.nouns, List.map_map, List.pairwise_map] using this
  · intro n hn
    obtain ⟨r, hr, hn⟩ := hn
    obtain ⟨⟨kr, er⟩, hpr, hre⟩ := List.mem_map.mp hr
    subst hre
    obtain ⟨⟨kn, en⟩, hpn, hne⟩ := List.mem_map.mp hn
    subst hne
    refine ⟨?_, rfl⟩
    have : en.conversations.Pairwise (fun a b => ConversationKey.lt a.1 b.1) :=
      ((hwf.2.2.2.2 (kr, er) hpr).2.2 (kn, en) hpn).1
    simpa [Noun.conversations, List.map_map, List.pairwise_map] using this
  · intro c hc
    obtain ⟨r, hr, n, hn, hcm⟩ := hc
    obtain ⟨⟨kr, er⟩, hpr, hre⟩ := List.mem_map.mp hr
    subst hre
    obtain ⟨⟨kn, en⟩, hpn, hne⟩ := List.mem_map.mp hn
    subst hne
    obtain ⟨⟨kc, ec⟩, hpc, hce⟩ := List.mem_map.mp hcm
    subst hce
    refine ⟨?_, rfl⟩
    have : ec.lines.Pairwise (fun a b => a.1 < b.1) :=
      ((hwf.2.2.2.2 (kr, er) hpr).2.2 (kn, en) hpn).2 (kc, ec) hpc
    simpa [Conversation.lines, List.map_map, List.pairwise_map] using this

/-- C5 witness: ascending iteration at concrete handles of the sample
book. -/
theorem C5_iteration_ascending_witness :
    (roomW.nouns.map Noun.raw_id).Pairwise (· < ·) ∧
    (nounW.conversations.map Conversation.raw_id).Pairwise ConversationKey.lt ∧
    (convW.lines.map Line.raw_id).Pairwise (· < ·) :=
  ⟨((C5_iteration_ascending bookW (by decide)).1 roomW (by decide)).1,
   ((C5_iteration_ascending bookW (by decide)).2.1 nounW (by decide)).1,
   ((C5_iteration_ascending bookW (by decide)).2.2 convW (by decide)).1⟩

/-- C9: in a book satisfying the internal-consistency invariant (every
line's raw talker identifier has a talker entry, every talker's role
identifier has a role entry), the `unwrap`s inside `Line::talker` and
`Talker::role` are unreachable: both return a valid handle without
panicking on every reachable line. -/
theorem C9_talker_role_never_panic (b : Book) (l : Line)
    (h1 : b.LinesResolve) (h2 : b.TalkersResolve) (hl : b.HasLine l) :
    ∃ t : Talker, l.talker = .ok t ∧ ∃ ro : Role, t.role = .ok ro := by
  obtain ⟨r, hr, n, hn, c, hc, hlm⟩ := hl
  obtain ⟨⟨kr, er⟩, hpr, hre⟩ := List.mem_map.mp hr
  subst hre
  obtain ⟨⟨kn, en⟩, hpn, hne⟩ := List.mem_map.mp hn
  subst hne
  obtain ⟨⟨kc, ec⟩, hpc, hce⟩ := List.mem_map.mp hc
  subst hce
  obtain ⟨⟨ks, es⟩, hpl, hle⟩ := List.mem_map.mp hlm
  subst hle
  have hres := h1 (kr, er) hpr (kn, en) hpn (kc, ec) hpc (ks, es) hpl
  obtain ⟨te, hte⟩ := Option.isSome_iff_exists.mp hres
  have htmem : (es.talker, te) ∈ b.talkerTable := mem_of_assocGet_eq_some hte
  have hrole := h2 (es.talker, te) htmem
  obtain ⟨re, hre2⟩ := Option.isSome_iff_exists.mp hrole
  refine ⟨⟨b, es.talker, te⟩, ?_, ⟨b, te.role_id, re⟩, ?_⟩
  · simp [Line.talker, Line.book, Conversation.book, Noun.book, Room.book,
      Book.get_talker, hte]
  · simp [Talker.role, Book.get_role, hre2]

/-- C9 witness: the sample book satisfies both resolution invariants and
its sample line resolves a talker and a role without panicking. -/
theorem C9_talker_role_never_panic_witness :
    ∃ t : Talker, lineW.talker = PanicOr.ok t ∧
      ∃ ro : Role, t.role = PanicOr.ok ro :=
  C9_talker_role_never_panic bookW lineW (by decide) (by decide) (by decide)

/-! Helpers for the store-layer claims. -/

/-- Whether an `Except` value is a success. -/
def isOkE {ε α : Type} : Except ε α → Bool
  | .ok _ => true
  | .error _ => false

theorem map_get?_eq {α β : Type} (f : α → β) (l : List α) (i : Nat) :
    (l.map f).get? i = (l.get? i).map f := by
  induction l generalizing i with
  | nil => cases i <;> simp
  | cons a t ih => cases i <;> simp [ih]

theorem countP_partition_eq {α : Type} (p q : α → Bool) (l : List α)
    (hpq : ∀ a, q a = !(p a)) :
    l.countP p + l.countP q = l.length := by
  induction l with
  | nil => simp
  | cons a t ih =>
    by_cases h : p a = true <;>
      simp [List.countP_cons, h, hpq] <;> omega

/-- C2 (evaluating the code at the failing input): on a store whose index
does not contain `(Script, 42)`, `read_resource` panics — the source's
`.unwrap()` on the `get_location` result — instead of surfacing a "not
found" error result. -/
theorem C2_read_resource_missing_panics :
    storeC2.resource_locations.get_location ⟨.Script, 42⟩ = none ∧
    storeC2.read_resource .Script 42
      = PanicOr.panic "called Option::unwrap on a None value" ∧
    storeC2.read_resource .Script 42 ≠ PanicOr.ok (.error .ioError) := by
  decide

/-- C8: `read_raw_contents()` yields exactly one independently fallible
item per indexed location in index order (item `i` is precisely the read of
location `i`, whatever the other items do), so an index whose locations
contain exactly one bad record yields `N - 1` successes and exactly one
failure. -/
theorem C8_enumeration_isolated (s : ResourceStore) :
    s.read_raw_contents.length = s.resource_locations.locations.length ∧
    (∀ i, s.read_raw_contents.get? i
      = (s.resource_locations.locations.get? i).map
          (fun loc => s.data_file.read_raw_contents loc)) ∧
    (s.resource_locations.locations.countP
        (fun loc => !(isOkE (s.data_file.read_raw_contents loc))) = 1 →
      s.read_raw_contents.countP (fun r => isOkE r)
          = s.resource_locations.locations.length - 1 ∧
      s.read_raw_contents.countP (fun r => !(isOkE r)) = 1) := by
  refine ⟨by simp [ResourceStore.read_raw_contents], ?_, ?_⟩
  · intro i
    exact map_get?_eq _ _ i
  · intro hone
    have hmap1 : s.read_raw_contents.countP (fun r => isOkE r)
        = s.resource_locations.locations.countP
            (fun loc => isOkE (s.data_file.read_raw_contents loc)) := by
      unfold ResourceStore.read_raw_contents
      rw [List.countP_map]
      rfl
    have hmap2 : s.read_raw_contents.countP (fun r => !(isOkE r))
        = s.resource_locations.locations.countP
            (fun loc => !(isOkE (s.data_file.read_raw_contents loc))) := by
      unfold ResourceStore.read_raw_contents
      rw [List.countP_map]
      rfl
    have hsum := countP_partition_eq
      (fun loc => isOkE (s.data_file.read_raw_contents loc))
      (fun loc => !(isOkE (s.data_file.read_raw_contents loc)))
      s.resource_locations.locations (fun a => rfl)
    rw [hmap1, hmap2]
    exact ⟨by omega, hone⟩

/-- C8 witness: the two-location store with one corrupt record yields one
success and one failure. -/
theorem C8_enumeration_isolated_witness :
    storeC8.read_raw_contents.countP (fun r => isOkE r)
        = storeC8.resource_locations.locations.length - 1 ∧
    storeC8.read_raw_contents.countP (fun r => !(isOkE r)) = 1 :=
  (C8_enumeration_isolated storeC8).2.2 (by decide)

/-- C7 counterexample: invoking extract-as-patch with the unsupported
resource type `other 5` on an archive that holds that resource is rejected
as unsupported, but only after the archive has been opened and the resource
read: the effect trace preceding the rejection contains archive I/O,
refuting "no archive read occurs prior to the rejection". -/
theorem C7_reject_counterexample :
    (cfgC7.run envC7).2 = .error .unsupported ∧
    (cfgC7.run envC7).1 = [.openStore, .readResource (.other 5) 7] ∧
    Effect.openStore ∈ (cfgC7.run envC7).1 ∧
    Effect.readResource (.other 5) 7 ∈ (cfgC7.run envC7).1 := by
  decide

/-- C7 (amended): an extract-as-patch invocation with a resource type other
than Script or Heap never succeeds and is rejected before any output file
is created — no file-creation or file-write effect ever occurs — although
the archive open and resource read do happen before the rejection. -/
theorem C7_unsupported_creates_no_file (cfg : ExtractResourceAsPatch)
    (env : Env) (h : patchExt cfg.resource_type = none) :
    (∀ p, Effect.createFile p ∉ (cfg.run env).1) ∧
    (∀ bs, Effect.writeBytes bs ∉ (cfg.run env).1) ∧
    (cfg.run env).2 ≠ .ok () := by
  obtain ⟨ms, exf⟩ := env
  cases ms with
  | error e => simp [ExtractResourceAsPatch.run]
  | ok store =>
    cases hread : store.read_resource cfg.resource_type cfg.resource_id with
    | panic msg => simp [ExtractResourceAsPatch.run, hread]
    | ok res =>
      cases res with
      | error e => simp [ExtractResourceAsPatch.run, hread]
      | ok contents => simp [ExtractResourceAsPatch.run, hread, h]

/-- C7 witness: the amended statement at the concrete unsupported-type
invocation. -/
theorem C7_unsupported_creates_no_file_witness :
    (∀ p, Effect.createFile p ∉ (cfgC7.run envC7).1) ∧
    (∀ bs, Effect.writeBytes bs ∉ (cfgC7.run envC7).1) ∧
    (cfgC7.run envC7).2 ≠ .ok () :=
  C7_unsupported_creates_no_file cfgC7 envC7 rfl

/-- C1 counterexample: extracting the compressed resource `(Script, 42)`
succeeds and emits `[type tag, 0]` followed by the DECODED payload
`[1, 2, 3]`; the raw payload as stored in the data file is `[7, 7]`, and
the bytes `[type tag, 0] ++ raw payload` are never written — refuting "the
raw payload bytes exactly as stored in the data file (not
decompressed/decoded)". -/
theorem C1_patch_bytes_counterexample :
    (cfgC1.run envC1).2 = .ok () ∧
    storeC1.data_file.read_raw_contents ⟨⟨.Script, 42⟩, 0⟩ = .ok rawC1 ∧
    rawC1.payload = [7, 7] ∧
    (cfgC1.run envC1).1 = [.openStore, .readResource .Script 42,
      .createFile "root/root/42.SCR", .writeBytes [130, 0, 1, 2, 3]] ∧
    Effect.writeBytes ([ResourceType.Script.toByte, 0] ++ rawC1.payload)
      ∉ (cfgC1.run envC1).1 := by
  decide

/-- C1 (amended): for every resource successfully extracted by
extract-as-patch, the emitted patch file's bytes are exactly one byte
holding the resource type tag, then one byte equal to 0, then the payload
bytes of the DECODED contents returned by `read_resource` (these equal the
raw stored bytes only when the record's compression tag denotes "stored
uncompressed"). -/
theorem C1_patch_bytes_decoded (cfg : ExtractResourceAsPatch) (env : Env)
    (store : ResourceStore) (c : Contents) (ext : String)
    (hstore : env.mainStore = .ok store)
    (hread : store.read_resource cfg.resource_type cfg.resource_id = .ok (.ok c))
    (hext : patchExt cfg.resource_type = some ext)
    (hdry : cfg.dry_run = false)
    (hnew : env.existingFiles.contains
        (pathJoin cfg.root_dir (pathJoin (cfg.output_dir.getD cfg.root_dir)
          (toString cfg.resource_id ++ "." ++ ext))) = false) :
    (cfg.run env).2 = .ok () ∧
    (cfg.run env).1 = [.openStore,
      .readResource cfg.resource_type cfg.resource_id,
      .createFile (pathJoin cfg.root_dir
        (pathJoin (cfg.output_dir.getD cfg.root_dir)
          (toString cfg.resource_id ++ "." ++ ext))),
      .writeBytes ([cfg.resource_type.toByte, 0] ++ c.data)] := by
  have hmem : pathJoin cfg.root_dir (pathJoin (cfg.output_dir.getD cfg.root_dir)
      (toString cfg.resource_id ++ "." ++ ext)) ∉ env.existingFiles := by
    simpa using hnew
  simp [ExtractResourceAsPatch.run, hstore, hread, hext, hdry, hmem]

/-- C1 witness: the amended statement at the concrete compressed
resource. -/
theorem C1_patch_bytes_decoded_witness :
    (cfgC1.run envC1).2 = .ok () ∧
    (cfgC1.run envC1).1 = [.openStore,
      .readResource cfgC1.resource_type cfgC1.resource_id,
      .createFile (pathJoin cfgC1.root_dir
        (pathJoin (cfgC1.output_dir.getD cfgC1.root_dir)
          (toString cfgC1.resource_id ++ "." ++ "SCR"))),
      .writeBytes ([cfgC1.resource_type.toByte, 0]
        ++ Contents.data ⟨.Script, [1, 2, 3]⟩)] :=
  C1_patch_bytes_decoded cfgC1 envC1 storeC1 ⟨.Script, [1, 2, 3]⟩ "SCR"
    rfl (by decide) rfl rfl (by decide)

end SciTool
